import Mathlib

/-!
A shallow embedding of `src/ATANCamera.cpp` (the FOV / "ATAN" radial
distortion camera model of Devernay and Faugeras, after PTAM), together
with proofs about its projection pipeline, parameter refresh, cached
state and derivative routines.

Machine floating point is modelled by the real numbers; "equality up to
floating-point tolerance" claims are settled as exact equalities of the
real-valued model.
-/

noncomputable section

namespace ATANCamera

/-- Euclidean norm of a 2-vector, as `cv::norm` computes it. -/
def norm2 (v : ℝ × ℝ) : ℝ := Real.sqrt (v.1 * v.1 + v.2 * v.2)

/-- Modelled from the spec: the forward distortion factor `rtrans_factor`,
declared in `ATANCamera.h` which is not among the provided sources.
Spec 4.2: "Forward: `factor(r) = 1` if distortion disabled or `r` below a
small threshold (empirically `0.001`, to avoid the 0/0 limit); else
`factor(r) = (1/(r*w)) * atan(2*r*tan(w/2))`." -/
def rtrans_factor (w r : ℝ) : ℝ :=
  if w = 0 ∨ r < 0.001 then 1
  else 1 / (r * w) * Real.arctan (2 * r * Real.tan (w / 2))

/-- Modelled from the spec: the inverse distortion transform `invrtrans`,
declared in `ATANCamera.h` which is not among the provided sources.
Spec 4.2: "Inverse: `invtrans(rd)` returns the undistorted radius for a
distorted radius, i.e. `tan(rd*w) / (2*tan(w/2))` when distortion
enabled, else `rd` unchanged." -/
def invrtrans (w rd : ℝ) : ℝ :=
  if w = 0 then rd else Real.tan (rd * w) / (2 * Real.tan (w / 2))

/-- The full mutable state of one `ATANCamera` instance: the intrinsic
parameter vector `mpvvCameraParams` and target image size, the derived
state recomputed by `RefreshParams`, and the last-operation cache. -/
@[ext] structure CamState where
  params : Fin 5 → ℝ
  imageSize : ℝ × ℝ
  mvFocal : ℝ × ℝ
  mvCenter : ℝ × ℝ
  mvInvFocal : ℝ × ℝ
  mdW : ℝ
  md2Tan : ℝ
  mdOneOver2Tan : ℝ
  mdWinv : ℝ
  mdDistortionEnabled : ℝ
  mdLargestRadius : ℝ
  mdMaxR : ℝ
  mdOnePixelDist : ℝ
  mvImplaneTL : ℝ × ℝ
  mvImplaneBR : ℝ × ℝ
  mvUFBLinearFocal : ℝ × ℝ
  mvUFBLinearInvFocal : ℝ × ℝ
  mvUFBLinearCenter : ℝ × ℝ
  mvLastCam : ℝ × ℝ
  mvLastIm : ℝ × ℝ
  mvLastDistCam : ℝ × ℝ
  mdLastR : ℝ
  mdLastDistR : ℝ
  mdLastFactor : ℝ
  mbInvalid : Bool

/-- The distorted normalized Euclidean coordinates recovered from a pixel
at the top of `ATANCamera::UnProject` (lines 193-194). -/
def distCamOf (s : CamState) (q : ℝ × ℝ) : ℝ × ℝ :=
  ((q.1 - s.mvCenter.1) * s.mvInvFocal.1, (q.2 - s.mvCenter.2) * s.mvInvFocal.2)

/-- `ATANCamera::Project` (lines 169-184): normalized Euclidean plane to
pixels, caching every intermediate quantity. -/
def Project (s : CamState) (p : ℝ × ℝ) : CamState :=
  let r := norm2 p
  let factor := rtrans_factor s.mdW r
  { s with
    mvLastCam := p
    mdLastR := r
    mbInvalid := decide (s.mdMaxR < r)
    mdLastFactor := factor
    mdLastDistR := factor * r
    mvLastDistCam := (factor * p.1, factor * p.2)
    mvLastIm := (s.mvCenter.1 + s.mvFocal.1 * (factor * p.1),
                 s.mvCenter.2 + s.mvFocal.2 * (factor * p.2)) }

/-- `ATANCamera::UnProject` (lines 188-213): pixels to the normalized
Euclidean plane.  The validity flag is not touched. -/
def UnProject (s : CamState) (q : ℝ × ℝ) : CamState :=
  let dc := distCamOf s q
  let rd := norm2 dc
  let ru := invrtrans s.mdW rd
  let dFactor := if 0.01 < rd then ru / rd else 1
  { s with
    mvLastIm := q
    mvLastDistCam := dc
    mdLastDistR := rd
    mdLastR := ru
    mdLastFactor := 1 / dFactor
    mvLastCam := (dFactor * dc.1, dFactor * dc.2) }

/-- The normalized Euclidean point returned by `ATANCamera::UnProject`
(the value of `mvLastCam` after the call). -/
def unprojPoint (s : CamState) (q : ℝ × ℝ) : ℝ × ℝ := (UnProject s q).mvLastCam

/-- `ATANCamera::UFBProject` (lines 357-370): same algorithm as `Project`
but mapping with the normalized intrinsics directly. -/
def UFBProject (s : CamState) (p : ℝ × ℝ) : CamState :=
  let r := norm2 p
  let factor := rtrans_factor s.mdW r
  { s with
    mvLastCam := p
    mdLastR := r
    mbInvalid := decide (s.mdMaxR < r)
    mdLastFactor := factor
    mdLastDistR := factor * r
    mvLastDistCam := (factor * p.1, factor * p.2)
    mvLastIm := (s.params 2 + s.params 0 * (factor * p.1),
                 s.params 3 + s.params 1 * (factor * p.2)) }

/-- `ATANCamera::UFBUnProject` (lines 375-390): same algorithm as
`UnProject` but with the normalized intrinsics directly. -/
def UFBUnProject (s : CamState) (q : ℝ × ℝ) : CamState :=
  let dc : ℝ × ℝ := ((q.1 - s.params 2) / s.params 0, (q.2 - s.params 3) / s.params 1)
  let rd := Real.sqrt (dc.1 * dc.1 + dc.2 * dc.2)
  let ru := invrtrans s.mdW rd
  let dFactor := if 0.01 < rd then ru / rd else 1
  { s with
    mvLastIm := q
    mvLastDistCam := dc
    mdLastDistR := rd
    mdLastR := ru
    mdLastFactor := 1 / dFactor
    mvLastCam := (dFactor * dc.1, dFactor * dc.2) }

/-- `ATANCamera::RefreshParams` (lines 64-163): recompute every derived
quantity from the parameter vector and image size.  The one-pixel
distance and bounding-box computations of the C++ code call `UnProject`
six times in sequence on the same camera; each call only rewrites the
last-operation cache (never the derived state it reads), and each call's
cache is overwritten by the next, so only the sixth call — at the corner
pixel `(-0.5, height - 0.5)` — survives into the returned state.  The
embedding therefore computes the six returned points with `unprojPoint`
over the shared refreshed derived state and applies that last `UnProject`
call to it. -/
def RefreshParams (s : CamState) : CamState :=
  let P := s.params
  let w := P 4
  let focal : ℝ × ℝ := (s.imageSize.1 * P 0, s.imageSize.2 * P 1)
  let center : ℝ × ℝ := (s.imageSize.1 * P 2 - 0.5, s.imageSize.2 * P 3 - 0.5)
  let v2 : ℝ × ℝ := (max (P 2) (1 - P 2) / P 0, max (P 3) (1 - P 3) / P 1)
  let largest := invrtrans w (norm2 v2)
  let s1 : CamState :=
    { s with
      mvFocal := focal
      mvCenter := center
      mvInvFocal := (1 / focal.1, 1 / focal.2)
      mdW := w
      md2Tan := if w = 0 then 0 else 2 * Real.tan (w / 2)
      mdOneOver2Tan := if w = 0 then s.mdOneOver2Tan else 1 / (2 * Real.tan (w / 2))
      mdWinv := if w = 0 then 0 else 1 / w
      mdDistortionEnabled := if w = 0 then 0 else 1
      mdLargestRadius := largest
      mdMaxR := 1.5 * largest }
  let vCenter := unprojPoint s1 (0.5 * s.imageSize.1, 0.5 * s.imageSize.2)
  let vRootTwoAway := unprojPoint s1 (0.5 * s.imageSize.1 + 1, 0.5 * s.imageSize.2 + 1)
  let onePix := norm2 (vCenter.1 - vRootTwoAway.1, vCenter.2 - vRootTwoAway.2) / Real.sqrt 2
  let v0 := unprojPoint s1 (-0.5, -0.5)
  let v1 := unprojPoint s1 (s.imageSize.1 - 0.5, -0.5)
  let v2c := unprojPoint s1 (s.imageSize.1 - 0.5, s.imageSize.2 - 0.5)
  let v3 := unprojPoint s1 (-0.5, s.imageSize.2 - 0.5)
  let vMin : ℝ × ℝ := (min (min (min v0.1 v1.1) v2c.1) v3.1,
                       min (min (min v0.2 v1.2) v2c.2) v3.2)
  let vMax : ℝ × ℝ := (max (max (max v0.1 v1.1) v2c.1) v3.1,
                       max (max (max v0.2 v1.2) v2c.2) v3.2)
  let range : ℝ × ℝ := (vMax.1 - vMin.1, vMax.2 - vMin.2)
  { UnProject s1 (-0.5, s.imageSize.2 - 0.5) with
    mdOnePixelDist := onePix
    mvImplaneTL := vMin
    mvImplaneBR := vMax
    mvUFBLinearInvFocal := range
    mvUFBLinearFocal := (1 / range.1, 1 / range.2)
    mvUFBLinearCenter := (-vMin.1 * (1 / range.1), -vMin.2 * (1 / range.2)) }

/-- Per-axis minimum of the four unprojected (half-pixel inset) image
corners computed by the refresh's bounding-box block (lines 134-151). -/
def implaneMin (t : CamState) (sz : ℝ × ℝ) : ℝ × ℝ :=
  let v0 := unprojPoint t (-0.5, -0.5)
  let v1 := unprojPoint t (sz.1 - 0.5, -0.5)
  let v2c := unprojPoint t (sz.1 - 0.5, sz.2 - 0.5)
  let v3 := unprojPoint t (-0.5, sz.2 - 0.5)
  (min (min (min v0.1 v1.1) v2c.1) v3.1, min (min (min v0.2 v1.2) v2c.2) v3.2)

/-- Per-axis maximum of the four unprojected image corners. -/
def implaneMax (t : CamState) (sz : ℝ × ℝ) : ℝ × ℝ :=
  let v0 := unprojPoint t (-0.5, -0.5)
  let v1 := unprojPoint t (sz.1 - 0.5, -0.5)
  let v2c := unprojPoint t (sz.1 - 0.5, sz.2 - 0.5)
  let v3 := unprojPoint t (-0.5, sz.2 - 0.5)
  (max (max (max v0.1 v1.1) v2c.1) v3.1, max (max (max v0.2 v1.2) v2c.2) v3.2)

/-- `ATANCamera::SetImageSize` (lines 51-61). -/
def SetImageSize (s : CamState) (sz : ℝ × ℝ) : CamState :=
  RefreshParams { s with imageSize := sz }

/-- `ATANCamera::UpdateParams` (lines 336-342): add a delta vector to the
parameter vector and refresh. -/
def UpdateParams (s : CamState) (u : Fin 5 → ℝ) : CamState :=
  RefreshParams { s with params := fun j => s.params j + u j }

/-- `ATANCamera::DisableRadialDistortion` (lines 344-350). -/
def DisableRadialDistortion (s : CamState) : CamState :=
  RefreshParams { s with params := fun j => if j = 4 then 0 else s.params j }

/-- The state of a freshly constructed camera before the constructor's
`RefreshParams` call: parameters and image size installed, every other
member still default-initialized. -/
def baseState (P : Fin 5 → ℝ) (sz : ℝ × ℝ) : CamState :=
  { params := P
    imageSize := sz
    mvFocal := (0, 0)
    mvCenter := (0, 0)
    mvInvFocal := (0, 0)
    mdW := 0
    md2Tan := 0
    mdOneOver2Tan := 0
    mdWinv := 0
    mdDistortionEnabled := 0
    mdLargestRadius := 0
    mdMaxR := 0
    mdOnePixelDist := 0
    mvImplaneTL := (0, 0)
    mvImplaneBR := (0, 0)
    mvUFBLinearFocal := (0, 0)
    mvUFBLinearInvFocal := (0, 0)
    mvUFBLinearCenter := (0, 0)
    mvLastCam := (0, 0)
    mvLastIm := (0, 0)
    mvLastDistCam := (0, 0)
    mdLastR := 0
    mdLastDistR := 0
    mdLastFactor := 0
    mbInvalid := false }

/-- The `ATANCamera` constructor (lines 25-48): install the parameter
vector and image size, then refresh. -/
def initState (P : Fin 5 → ℝ) (sz : ℝ × ℝ) : CamState :=
  RefreshParams (baseState P sz)

/-- The default parameter vector `mvDefaultParams` (lines 31-35):
`(0.5, 4/5, 0.5, 0.5, 0.07)`. -/
def defaultParams : Fin 5 → ℝ := fun j =>
  if j.val = 0 then 0.5
  else if j.val = 1 then 0.8
  else if j.val = 2 then 0.5
  else if j.val = 3 then 0.5
  else 0.07

/-- `ATANCamera::GetProjectionDerivs` (lines 252-292): analytic 2x2
Jacobian of the pixel projection with respect to the normalized
Euclidean coordinates, evaluated on the last-operation cache.  Returned
as rows: `((m00, m01), (m10, m11))`. -/
def GetProjectionDerivs (s : CamState) : (ℝ × ℝ) × (ℝ × ℝ) :=
  let k := s.md2Tan
  let x := s.mvLastCam.1
  let y := s.mvLastCam.2
  let ru := s.mdLastR * s.mdDistortionEnabled
  let dFracBydx :=
    if ru < 0.01 then 0
    else (s.mdWinv * k / (1 + k * k * ru * ru) - s.mdLastFactor) * x / (ru * ru)
  let dFracBydy :=
    if ru < 0.01 then 0
    else (s.mdWinv * k / (1 + k * k * ru * ru) - s.mdLastFactor) * y / (ru * ru)
  ((s.mvFocal.1 * (dFracBydx * x + s.mdLastFactor), s.mvFocal.1 * (dFracBydy * x)),
   (s.mvFocal.2 * (dFracBydx * y), s.mvFocal.2 * (dFracBydy * y + s.mdLastFactor)))

/-- One iteration of the finite-difference loop of
`ATANCamera::GetCameraParameterDerivs` (lines 305-326): skip when the
index is the distortion parameter and `mdW` is zero; otherwise perturb
parameter `i` by `0.001`, refresh and reproject, record the difference
quotient column, then restore the saved parameter vector and refresh. -/
def GCPDIter (vNNormal : Fin 5 → ℝ) (v2Cam v2Out : ℝ × ℝ) (i : Fin 5)
    (acc : CamState × (Fin 5 → ℝ × ℝ)) : CamState × (Fin 5 → ℝ × ℝ) :=
  if i = 4 ∧ acc.1.mdW = 0 then acc
  else
    let sPerturbed := Project (UpdateParams acc.1 (fun j => if j = i then 0.001 else 0)) v2Cam
    let col : ℝ × ℝ := ((sPerturbed.mvLastIm.1 - v2Out.1) / 0.001,
                        (sPerturbed.mvLastIm.2 - v2Out.2) / 0.001)
    (RefreshParams { sPerturbed with params := vNNormal },
     fun j => if j = i then col else acc.2 j)

/-- `ATANCamera::GetCameraParameterDerivs` (lines 295-333): numeric 2x5
Jacobian of the pixel projection of the cached point with respect to the
intrinsic parameters; returns the final camera state and the matrix as a
map from parameter index to column. -/
def GetCameraParameterDerivs (s : CamState) : CamState × (Fin 5 → ℝ × ℝ) :=
  let vNNormal := s.params
  let v2Cam := s.mvLastCam
  let sProj := Project s v2Cam
  let v2Out := sProj.mvLastIm
  let a0 := GCPDIter vNNormal v2Cam v2Out 0 (sProj, fun _ => (0, 0))
  let a1 := GCPDIter vNNormal v2Cam v2Out 1 a0
  let a2 := GCPDIter vNNormal v2Cam v2Out 2 a1
  let a3 := GCPDIter vNNormal v2Cam v2Out 3 a2
  let a4 := GCPDIter vNNormal v2Cam v2Out 4 a3
  if a4.1.mdW = 0 then (a4.1, fun j => if j = 4 then (0, 0) else a4.2 j) else a4

/-- Consistency of the cached distortion scalars and inverse focal
length with the current parameter vector: exactly what `RefreshParams`
establishes (note `(0 : ℝ)⁻¹ = 0`, matching the explicit zero branch of
the refresh). -/
def DerivedOK (s : CamState) : Prop :=
  s.mdW = s.params 4 ∧
  s.md2Tan = 2 * Real.tan (s.params 4 / 2) ∧
  s.mdWinv = (s.params 4)⁻¹ ∧
  s.mdDistortionEnabled = (if s.params 4 = 0 then 0 else 1) ∧
  s.mvInvFocal = ((s.mvFocal.1)⁻¹, (s.mvFocal.2)⁻¹)

/-- The radius-recovery factor `dFactor` computed inside
`ATANCamera::UnProject` (lines 201-205). -/
def unprojFactor (s : CamState) (q : ℝ × ℝ) : ℝ :=
  if 0.01 < norm2 (distCamOf s q) then
    invrtrans s.mdW (norm2 (distCamOf s q)) / norm2 (distCamOf s q)
  else 1

/-- The distorted coordinates recovered at the top of
`ATANCamera::UFBUnProject` (lines 378-379). -/
def ufbDistCamOf (s : CamState) (q : ℝ × ℝ) : ℝ × ℝ :=
  ((q.1 - s.params 2) / s.params 0, (q.2 - s.params 3) / s.params 1)

/-- The radius-recovery factor `dFactor` computed inside
`ATANCamera::UFBUnProject` (lines 382-386). -/
def ufbFactor (s : CamState) (q : ℝ × ℝ) : ℝ :=
  if 0.01 < norm2 (ufbDistCamOf s q) then
    invrtrans s.mdW (norm2 (ufbDistCamOf s q)) / norm2 (ufbDistCamOf s q)
  else 1

/-- A concrete parameter vector with distortion angle `π/2` (so that
`tan(w/2) = 1`), unit normalized focal lengths and principal point at
the origin; used to exhibit concrete instances of the round-trip
theorems. -/
def testParams : Fin 5 → ℝ := fun j =>
  if j.val = 4 then Real.pi / 2 else if j.val ≤ 1 then 1 else 0

/-- A concrete camera state over `testParams` whose derived scalars are
consistent (`DerivedOK`), with unit pixel focal length, centered
principal point and maximum valid radius 2. -/
def testState : CamState :=
  { baseState testParams (1, 1) with
    mvFocal := (1, 1)
    mvCenter := (0, 0)
    mvInvFocal := (1, 1)
    mdW := Real.pi / 2
    md2Tan := 2 * Real.tan (Real.pi / 2 / 2)
    mdOneOver2Tan := 1 / (2 * Real.tan (Real.pi / 2 / 2))
    mdWinv := (Real.pi / 2)⁻¹
    mdDistortionEnabled := 1
    mdMaxR := 2 }

/-! ### Field laws of the four projection operations

Each operation only rewrites the last-operation cache; every derived
field (and, for the unprojections, the validity flag) passes through
untouched.  All of these are definitional. -/

@[simp] theorem Project_params (s : CamState) (p : ℝ × ℝ) :
    (Project s p).params = s.params := rfl

@[simp] theorem Project_imageSize (s : CamState) (p : ℝ × ℝ) :
    (Project s p).imageSize = s.imageSize := rfl

@[simp] theorem Project_mvFocal (s : CamState) (p : ℝ × ℝ) :
    (Project s p).mvFocal = s.mvFocal := rfl

@[simp] theorem Project_mvCenter (s : CamState) (p : ℝ × ℝ) :
    (Project s p).mvCenter = s.mvCenter := rfl

@[simp] theorem Project_mvInvFocal (s : CamState) (p : ℝ × ℝ) :
    (Project s p).mvInvFocal = s.mvInvFocal := rfl

@[simp] theorem Project_mdW (s : CamState) (p : ℝ × ℝ) :
    (Project s p).mdW = s.mdW := rfl

@[simp] theorem Project_md2Tan (s : CamState) (p : ℝ × ℝ) :
    (Project s p).md2Tan = s.md2Tan := rfl

@[simp] theorem Project_mdOneOver2Tan (s : CamState) (p : ℝ × ℝ) :
    (Project s p).mdOneOver2Tan = s.mdOneOver2Tan := rfl

@[simp] theorem Project_mdWinv (s : CamState) (p : ℝ × ℝ) :
    (Project s p).mdWinv = s.mdWinv := rfl

@[simp] theorem Project_mdDistortionEnabled (s : CamState) (p : ℝ × ℝ) :
    (Project s p).mdDistortionEnabled = s.mdDistortionEnabled := rfl

@[simp] theorem Project_mdLargestRadius (s : CamState) (p : ℝ × ℝ) :
    (Project s p).mdLargestRadius = s.mdLargestRadius := rfl

@[simp] theorem Project_mdMaxR (s : CamState) (p : ℝ × ℝ) :
    (Project s p).mdMaxR = s.mdMaxR := rfl

@[simp] theorem Project_mdOnePixelDist (s : CamState) (p : ℝ × ℝ) :
    (Project s p).mdOnePixelDist = s.mdOnePixelDist := rfl

@[simp] theorem Project_mvImplaneTL (s : CamState) (p : ℝ × ℝ) :
    (Project s p).mvImplaneTL = s.mvImplaneTL := rfl

@[simp] theorem Project_mvImplaneBR (s : CamState) (p : ℝ × ℝ) :
    (Project s p).mvImplaneBR = s.mvImplaneBR := rfl

@[simp] theorem Project_mvUFBLinearFocal (s : CamState) (p : ℝ × ℝ) :
    (Project s p).mvUFBLinearFocal = s.mvUFBLinearFocal := rfl

@[simp] theorem Project_mvUFBLinearInvFocal (s : CamState) (p : ℝ × ℝ) :
    (Project s p).mvUFBLinearInvFocal = s.mvUFBLinearInvFocal := rfl

@[simp] theorem Project_mvUFBLinearCenter (s : CamState) (p : ℝ × ℝ) :
    (Project s p).mvUFBLinearCenter = s.mvUFBLinearCenter := rfl

@[simp] theorem Project_mvLastCam (s : CamState) (p : ℝ × ℝ) :
    (Project s p).mvLastCam = p := rfl

@[simp] theorem Project_mdLastR (s : CamState) (p : ℝ × ℝ) :
    (Project s p).mdLastR = norm2 p := rfl

@[simp] theorem Project_mbInvalid (s : CamState) (p : ℝ × ℝ) :
    (Project s p).mbInvalid = decide (s.mdMaxR < norm2 p) := rfl

@[simp] theorem Project_mdLastFactor (s : CamState) (p : ℝ × ℝ) :
    (Project s p).mdLastFactor = rtrans_factor s.mdW (norm2 p) := rfl

@[simp] theorem Project_mdLastDistR (s : CamState) (p : ℝ × ℝ) :
    (Project s p).mdLastDistR = rtrans_factor s.mdW (norm2 p) * norm2 p := rfl

@[simp] theorem Project_mvLastDistCam (s : CamState) (p : ℝ × ℝ) :
    (Project s p).mvLastDistCam
      = (rtrans_factor s.mdW (norm2 p) * p.1, rtrans_factor s.mdW (norm2 p) * p.2) := rfl

@[simp] theorem Project_mvLastIm (s : CamState) (p : ℝ × ℝ) :
    (Project s p).mvLastIm
      = (s.mvCenter.1 + s.mvFocal.1 * (rtrans_factor s.mdW (norm2 p) * p.1),
         s.mvCenter.2 + s.mvFocal.2 * (rtrans_factor s.mdW (norm2 p) * p.2)) := rfl

@[simp] theorem UnProject_params (s : CamState) (q : ℝ × ℝ) :
    (UnProject s q).params = s.params := rfl

@[simp] theorem UnProject_imageSize (s : CamState) (q : ℝ × ℝ) :
    (UnProject s q).imageSize = s.imageSize := rfl

@[simp] theorem UnProject_mvFocal (s : CamState) (q : ℝ × ℝ) :
    (UnProject s q).mvFocal = s.mvFocal := rfl

@[simp] theorem UnProject_mvCenter (s : CamState) (q : ℝ × ℝ) :
    (UnProject s q).mvCenter = s.mvCenter := rfl

@[simp] theorem UnProject_mvInvFocal (s : CamState) (q : ℝ × ℝ) :
    (UnProject s q).mvInvFocal = s.mvInvFocal := rfl

@[simp] theorem UnProject_mdW (s : CamState) (q : ℝ × ℝ) :
    (UnProject s q).mdW = s.mdW := rfl

@[simp] theorem UnProject_md2Tan (s : CamState) (q : ℝ × ℝ) :
    (UnProject s q).md2Tan = s.md2Tan := rfl

@[simp] theorem UnProject_mdOneOver2Tan (s : CamState) (q : ℝ × ℝ) :
    (UnProject s q).mdOneOver2Tan = s.mdOneOver2Tan := rfl

@[simp] theorem UnProject_mdWinv (s : CamState) (q : ℝ × ℝ) :
    (UnProject s q).mdWinv = s.mdWinv := rfl

@[simp] theorem UnProject_mdDistortionEnabled (s : CamState) (q : ℝ × ℝ) :
    (UnProject s q).mdDistortionEnabled = s.mdDistortionEnabled := rfl

@[simp] theorem UnProject_mdLargestRadius (s : CamState) (q : ℝ × ℝ) :
    (UnProject s q).mdLargestRadius = s.mdLargestRadius := rfl

@[simp] theorem UnProject_mdMaxR (s : CamState) (q : ℝ × ℝ) :
    (UnProject s q).mdMaxR = s.mdMaxR := rfl

@[simp] theorem UnProject_mdOnePixelDist (s : CamState) (q : ℝ × ℝ) :
    (UnProject s q).mdOnePixelDist = s.mdOnePixelDist := rfl

@[simp] theorem UnProject_mvImplaneTL (s : CamState) (q : ℝ × ℝ) :
    (UnProject s q).mvImplaneTL = s.mvImplaneTL := rfl

@[simp] theorem UnProject_mvImplaneBR (s : CamState) (q : ℝ × ℝ) :
    (UnProject s q).mvImplaneBR = s.mvImplaneBR := rfl

@[simp] theorem UnProject_mvUFBLinearFocal (s : CamState) (q : ℝ × ℝ) :
    (UnProject s q).mvUFBLinearFocal = s.mvUFBLinearFocal := rfl

@[simp] theorem UnProject_mvUFBLinearInvFocal (s : CamState) (q : ℝ × ℝ) :
    (UnProject s q).mvUFBLinearInvFocal = s.mvUFBLinearInvFocal := rfl

@[simp] theorem UnProject_mvUFBLinearCenter (s : CamState) (q : ℝ × ℝ) :
    (UnProject s q).mvUFBLinearCenter = s.mvUFBLinearCenter := rfl

@[simp] theorem UnProject_mbInvalid (s : CamState) (q : ℝ × ℝ) :
    (UnProject s q).mbInvalid = s.mbInvalid := rfl

@[simp] theorem UnProject_mvLastIm (s : CamState) (q : ℝ × ℝ) :
    (UnProject s q).mvLastIm = q := rfl

@[simp] theorem UnProject_mvLastDistCam (s : CamState) (q : ℝ × ℝ) :
    (UnProject s q).mvLastDistCam = distCamOf s q := rfl

@[simp] theorem UnProject_mdLastDistR (s : CamState) (q : ℝ × ℝ) :
    (UnProject s q).mdLastDistR = norm2 (distCamOf s q) := rfl

@[simp] theorem UnProject_mdLastR (s : CamState) (q : ℝ × ℝ) :
    (UnProject s q).mdLastR = invrtrans s.mdW (norm2 (distCamOf s q)) := rfl

@[simp] theorem UnProject_mdLastFactor (s : CamState) (q : ℝ × ℝ) :
    (UnProject s q).mdLastFactor = 1 / unprojFactor s q := rfl

@[simp] theorem UnProject_mvLastCam (s : CamState) (q : ℝ × ℝ) :
    (UnProject s q).mvLastCam
      = (unprojFactor s q * (distCamOf s q).1, unprojFactor s q * (distCamOf s q).2) := rfl

@[simp] theorem UFBProject_params (s : CamState) (p : ℝ × ℝ) :
    (UFBProject s p).params = s.params := rfl

@[simp] theorem UFBProject_imageSize (s : CamState) (p : ℝ × ℝ) :
    (UFBProject s p).imageSize = s.imageSize := rfl

@[simp] theorem UFBProject_mvFocal (s : CamState) (p : ℝ × ℝ) :
    (UFBProject s p).mvFocal = s.mvFocal := rfl

@[simp] theorem UFBProject_mvCenter (s : CamState) (p : ℝ × ℝ) :
    (UFBProject s p).mvCenter = s.mvCenter := rfl

@[simp] theorem UFBProject_mvInvFocal (s : CamState) (p : ℝ × ℝ) :
    (UFBProject s p).mvInvFocal = s.mvInvFocal := rfl

@[simp] theorem UFBProject_mdW (s : CamState) (p : ℝ × ℝ) :
    (UFBProject s p).mdW = s.mdW := rfl

@[simp] theorem UFBProject_mdMaxR (s : CamState) (p : ℝ × ℝ) :
    (UFBProject s p).mdMaxR = s.mdMaxR := rfl

@[simp] theorem UFBProject_mbInvalid (s : CamState) (p : ℝ × ℝ) :
    (UFBProject s p).mbInvalid = decide (s.mdMaxR < norm2 p) := rfl

@[simp] theorem UFBProject_mvLastCam (s : CamState) (p : ℝ × ℝ) :
    (UFBProject s p).mvLastCam = p := rfl

@[simp] theorem UFBProject_mdLastR (s : CamState) (p : ℝ × ℝ) :
    (UFBProject s p).mdLastR = norm2 p := rfl

@[simp] theorem UFBProject_mdLastFactor (s : CamState) (p : ℝ × ℝ) :
    (UFBProject s p).mdLastFactor = rtrans_factor s.mdW (norm2 p) := rfl

@[simp] theorem UFBProject_mvLastIm (s : CamState) (p : ℝ × ℝ) :
    (UFBProject s p).mvLastIm
      = (s.params 2 + s.params 0 * (rtrans_factor s.mdW (norm2 p) * p.1),
         s.params 3 + s.params 1 * (rtrans_factor s.mdW (norm2 p) * p.2)) := rfl

@[simp] theorem UFBUnProject_params (s : CamState) (q : ℝ × ℝ) :
    (UFBUnProject s q).params = s.params := rfl

@[simp] theorem UFBUnProject_mdW (s : CamState) (q : ℝ × ℝ) :
    (UFBUnProject s q).mdW = s.mdW := rfl

@[simp] theorem UFBUnProject_mdMaxR (s : CamState) (q : ℝ × ℝ) :
    (UFBUnProject s q).mdMaxR = s.mdMaxR := rfl

@[simp] theorem UFBUnProject_mbInvalid (s : CamState) (q : ℝ × ℝ) :
    (UFBUnProject s q).mbInvalid = s.mbInvalid := rfl

@[simp] theorem UFBUnProject_mvLastIm (s : CamState) (q : ℝ × ℝ) :
    (UFBUnProject s q).mvLastIm = q := rfl

@[simp] theorem UFBUnProject_mdLastFactor (s : CamState) (q : ℝ × ℝ) :
    (UFBUnProject s q).mdLastFactor = 1 / ufbFactor s q := rfl

@[simp] theorem UFBUnProject_mvLastCam (s : CamState) (q : ℝ × ℝ) :
    (UFBUnProject s q).mvLastCam
      = (ufbFactor s q * (ufbDistCamOf s q).1, ufbFactor s q * (ufbDistCamOf s q).2) := rfl

/-! ### Field laws of `RefreshParams`

The derived state after a refresh is a closed-form function of the
parameter vector and image size (except `mdOneOver2Tan`, which is left
stale when `w = 0`, matching lines 95-102 of the source); the validity
flag passes through untouched, and the cache holds the unprojection of
the last corner pixel. -/

@[simp] theorem RefreshParams_params (s : CamState) :
    (RefreshParams s).params = s.params := rfl

@[simp] theorem RefreshParams_imageSize (s : CamState) :
    (RefreshParams s).imageSize = s.imageSize := rfl

@[simp] theorem RefreshParams_mvFocal (s : CamState) :
    (RefreshParams s).mvFocal = (s.imageSize.1 * s.params 0, s.imageSize.2 * s.params 1) := rfl

@[simp] theorem RefreshParams_mvCenter (s : CamState) :
    (RefreshParams s).mvCenter
      = (s.imageSize.1 * s.params 2 - 0.5, s.imageSize.2 * s.params 3 - 0.5) := rfl

@[simp] theorem RefreshParams_mvInvFocal (s : CamState) :
    (RefreshParams s).mvInvFocal
      = (1 / (s.imageSize.1 * s.params 0), 1 / (s.imageSize.2 * s.params 1)) := rfl

@[simp] theorem RefreshParams_mdW (s : CamState) :
    (RefreshParams s).mdW = s.params 4 := rfl

@[simp] theorem RefreshParams_md2Tan (s : CamState) :
    (RefreshParams s).md2Tan
      = if s.params 4 = 0 then 0 else 2 * Real.tan (s.params 4 / 2) := rfl

@[simp] theorem RefreshParams_mdOneOver2Tan (s : CamState) :
    (RefreshParams s).mdOneOver2Tan
      = if s.params 4 = 0 then s.mdOneOver2Tan else 1 / (2 * Real.tan (s.params 4 / 2)) := rfl

@[simp] theorem RefreshParams_mdWinv (s : CamState) :
    (RefreshParams s).mdWinv = if s.params 4 = 0 then 0 else 1 / s.params 4 := rfl

@[simp] theorem RefreshParams_mdDistortionEnabled (s : CamState) :
    (RefreshParams s).mdDistortionEnabled = if s.params 4 = 0 then 0 else 1 := rfl

@[simp] theorem RefreshParams_mdLargestRadius (s : CamState) :
    (RefreshParams s).mdLargestRadius
      = invrtrans (s.params 4)
          (norm2 (max (s.params 2) (1 - s.params 2) / s.params 0,
                  max (s.params 3) (1 - s.params 3) / s.params 1)) := rfl

@[simp] theorem RefreshParams_mdMaxR (s : CamState) :
    (RefreshParams s).mdMaxR
      = 1.5 * invrtrans (s.params 4)
          (norm2 (max (s.params 2) (1 - s.params 2) / s.params 0,
                  max (s.params 3) (1 - s.params 3) / s.params 1)) := rfl

@[simp] theorem RefreshParams_mbInvalid (s : CamState) :
    (RefreshParams s).mbInvalid = s.mbInvalid := rfl

@[simp] theorem RefreshParams_mvLastIm (s : CamState) :
    (RefreshParams s).mvLastIm = (-0.5, s.imageSize.2 - 0.5) := rfl

theorem RefreshParams_mvLastDistCam (s : CamState) :
    (RefreshParams s).mvLastDistCam
      = distCamOf (RefreshParams s) (-0.5, s.imageSize.2 - 0.5) := rfl

theorem RefreshParams_mdLastDistR (s : CamState) :
    (RefreshParams s).mdLastDistR
      = norm2 (distCamOf (RefreshParams s) (-0.5, s.imageSize.2 - 0.5)) := rfl

theorem RefreshParams_mdLastR (s : CamState) :
    (RefreshParams s).mdLastR
      = invrtrans (s.params 4)
          (norm2 (distCamOf (RefreshParams s) (-0.5, s.imageSize.2 - 0.5))) := rfl

theorem RefreshParams_mdLastFactor (s : CamState) :
    (RefreshParams s).mdLastFactor
      = 1 / unprojFactor (RefreshParams s) (-0.5, s.imageSize.2 - 0.5) := rfl

theorem RefreshParams_mvLastCam (s : CamState) :
    (RefreshParams s).mvLastCam
      = (unprojFactor (RefreshParams s) (-0.5, s.imageSize.2 - 0.5)
           * (distCamOf (RefreshParams s) (-0.5, s.imageSize.2 - 0.5)).1,
         unprojFactor (RefreshParams s) (-0.5, s.imageSize.2 - 0.5)
           * (distCamOf (RefreshParams s) (-0.5, s.imageSize.2 - 0.5)).2) := rfl

/-- The refresh ends by unprojecting the corner pixel
`(-0.5, height - 0.5)`, so a refreshed state is a fixed point of that
very unprojection: its whole last-operation cache is exactly what
`UnProject` at that corner writes. -/
theorem RefreshParams_fix (s : CamState) :
    RefreshParams s = UnProject (RefreshParams s) (-0.5, s.imageSize.2 - 0.5) := rfl

theorem RefreshParams_mdOnePixelDist (s : CamState) :
    (RefreshParams s).mdOnePixelDist
      = norm2 ((unprojPoint (RefreshParams s) (0.5 * s.imageSize.1, 0.5 * s.imageSize.2)).1
                 - (unprojPoint (RefreshParams s)
                     (0.5 * s.imageSize.1 + 1, 0.5 * s.imageSize.2 + 1)).1,
               (unprojPoint (RefreshParams s) (0.5 * s.imageSize.1, 0.5 * s.imageSize.2)).2
                 - (unprojPoint (RefreshParams s)
                     (0.5 * s.imageSize.1 + 1, 0.5 * s.imageSize.2 + 1)).2)
          / Real.sqrt 2 := rfl

theorem RefreshParams_mvImplaneTL (s : CamState) :
    (RefreshParams s).mvImplaneTL = implaneMin (RefreshParams s) s.imageSize := rfl

theorem RefreshParams_mvImplaneBR (s : CamState) :
    (RefreshParams s).mvImplaneBR = implaneMax (RefreshParams s) s.imageSize := rfl

theorem RefreshParams_mvUFBLinearInvFocal (s : CamState) :
    (RefreshParams s).mvUFBLinearInvFocal
      = ((implaneMax (RefreshParams s) s.imageSize).1
           - (implaneMin (RefreshParams s) s.imageSize).1,
         (implaneMax (RefreshParams s) s.imageSize).2
           - (implaneMin (RefreshParams s) s.imageSize).2) := rfl

theorem RefreshParams_mvUFBLinearFocal (s : CamState) :
    (RefreshParams s).mvUFBLinearFocal
      = (1 / ((implaneMax (RefreshParams s) s.imageSize).1
                - (implaneMin (RefreshParams s) s.imageSize).1),
         1 / ((implaneMax (RefreshParams s) s.imageSize).2
                - (implaneMin (RefreshParams s) s.imageSize).2)) := rfl

theorem RefreshParams_mvUFBLinearCenter (s : CamState) :
    (RefreshParams s).mvUFBLinearCenter
      = (-(implaneMin (RefreshParams s) s.imageSize).1
           * (1 / ((implaneMax (RefreshParams s) s.imageSize).1
                     - (implaneMin (RefreshParams s) s.imageSize).1)),
         -(implaneMin (RefreshParams s) s.imageSize).2
           * (1 / ((implaneMax (RefreshParams s) s.imageSize).2
                     - (implaneMin (RefreshParams s) s.imageSize).2))) := rfl

/-! ### Congruence: the refresh is determined by parameters and size

Everything `RefreshParams` writes is a function of the parameter vector
and the image size alone, except that `mdOneOver2Tan` is left stale when
`w = 0` and the validity flag always passes through. -/

theorem norm2_nonneg (v : ℝ × ℝ) : 0 ≤ norm2 v := Real.sqrt_nonneg _

theorem norm2_scale (c : ℝ) (v : ℝ × ℝ) :
    norm2 (c * v.1, c * v.2) = |c| * norm2 v := by
  unfold norm2
  rw [show c * v.1 * (c * v.1) + c * v.2 * (c * v.2)
        = c * c * (v.1 * v.1 + v.2 * v.2) by ring,
    Real.sqrt_mul (mul_self_nonneg c), Real.sqrt_mul_self_eq_abs]

/-- A refreshed camera always satisfies `DerivedOK`. -/
theorem DerivedOK_refresh (s : CamState) : DerivedOK (RefreshParams s) := by
  refine ⟨rfl, ?_, ?_, ?_, ?_⟩
  · by_cases hw : s.params 4 = 0 <;>
      simp [hw, Real.tan_zero]
  · by_cases hw : s.params 4 = 0 <;>
      simp [hw, one_div]
  · rfl
  · simp [one_div]

set_option maxHeartbeats 4000000 in
theorem RefreshParams_congr (a b : CamState) (hp : a.params = b.params)
    (hs : a.imageSize = b.imageSize)
    (ho : b.params 4 = 0 → a.mdOneOver2Tan = b.mdOneOver2Tan) :
    RefreshParams a = { RefreshParams b with mbInvalid := a.mbInvalid } := by
  apply CamState.ext
  · simpa using hp
  · simpa using hs
  · simp [hp, hs]
  · simp [hp, hs]
  · simp [hp, hs]
  · simp [hp]
  · simp [hp]
  · by_cases hb : b.params 4 = 0
    · simp [hp, hb, ho hb]
    · simp [hp, hb]
  · simp [hp]
  · simp [hp]
  · simp [hp]
  · simp [hp]
  · simp [RefreshParams_mdOnePixelDist, unprojPoint, unprojFactor, distCamOf, hp, hs]
  · simp [RefreshParams_mvImplaneTL, implaneMin, unprojPoint, unprojFactor, distCamOf, hp, hs]
  · simp [RefreshParams_mvImplaneBR, implaneMax, unprojPoint, unprojFactor, distCamOf, hp, hs]
  · simp [RefreshParams_mvUFBLinearFocal, implaneMin, implaneMax, unprojPoint, unprojFactor,
      distCamOf, hp, hs]
  · simp [RefreshParams_mvUFBLinearInvFocal, implaneMin, implaneMax, unprojPoint, unprojFactor,
      distCamOf, hp, hs]
  · simp [RefreshParams_mvUFBLinearCenter, implaneMin, implaneMax, unprojPoint, unprojFactor,
      distCamOf, hp, hs]
  · simp [RefreshParams_mvLastCam, unprojFactor, distCamOf, hp, hs]
  · simp [hs]
  · simp [RefreshParams_mvLastDistCam, distCamOf, hp, hs]
  · simp [RefreshParams_mdLastR, distCamOf, hp, hs]
  · simp [RefreshParams_mdLastDistR, distCamOf, hp, hs]
  · simp [RefreshParams_mdLastFactor, unprojFactor, distCamOf, hp, hs]
  · simp

/-- The returned pixel of `Project` only depends on the derived pinhole
and distortion fields of the state it runs on. -/
theorem Project_mvLastIm_congr (s t : CamState) (h1 : s.mvCenter = t.mvCenter)
    (h2 : s.mvFocal = t.mvFocal) (h3 : s.mdW = t.mdW) (p : ℝ × ℝ) :
    (Project s p).mvLastIm = (Project t p).mvLastIm := by
  simp [h1, h2, h3]

/-- The pixel produced by refreshing and then projecting is a function
of the parameter vector and image size alone. -/
theorem Project_RefreshParams_im (a b : CamState) (hp : a.params = b.params)
    (hs : a.imageSize = b.imageSize) (p : ℝ × ℝ) :
    (Project (RefreshParams a) p).mvLastIm = (Project (RefreshParams b) p).mvLastIm := by
  apply Project_mvLastIm_congr <;> simp [hp, hs]

/-! ### Scalar analysis of the distortion transform -/

/-- On `[0, 1/2]` the tangent is below the doubled argument. -/
theorem tan_le_double {y : ℝ} (h0 : 0 ≤ y) (h1 : y ≤ 1 / 2) : Real.tan y ≤ 2 * y := by
  rcases eq_or_lt_of_le h0 with h | h
  · rw [← h, Real.tan_zero]
    linarith
  · have hpi := Real.pi_gt_three
    have hcos2 : Real.cos (1 / 2) ≤ Real.cos y :=
      Real.cos_le_cos_of_nonneg_of_le_pi h0 (by linarith) h1
    have hcos3 : Real.cos (Real.pi / 3) ≤ Real.cos (1 / 2) :=
      Real.cos_le_cos_of_nonneg_of_le_pi (by norm_num) (by linarith) (by linarith)
    rw [Real.cos_pi_div_three] at hcos3
    have hsin : Real.sin y < y := Real.sin_lt h
    have hcpos : 0 < Real.cos y := by linarith
    rw [Real.tan_eq_sin_div_cos, div_le_iff₀ hcpos]
    nlinarith [Real.sin_le_one y]

/-- On `[0, 1]` the arctangent is above half the argument. -/
theorem half_le_arctan {x : ℝ} (h0 : 0 ≤ x) (h1 : x ≤ 1) : x / 2 ≤ Real.arctan x := by
  have hpi := Real.pi_gt_three
  have htan : Real.tan (x / 2) ≤ x := by
    have := tan_le_double (by linarith : (0:ℝ) ≤ x / 2) (by linarith)
    linarith
  have harct : Real.arctan (Real.tan (x / 2)) = x / 2 :=
    Real.arctan_tan (by linarith) (by linarith)
  calc x / 2 = Real.arctan (Real.tan (x / 2)) := harct.symm
    _ ≤ Real.arctan x := Real.arctan_strictMono.monotone htan

/-- Core scalar round trip of the distortion transform: for `0 < w < π`
and undistorted radius `r > 0.02`, the forward factor is positive, the
distorted radius `factor * r` clears the `0.01` guard of `UnProject`,
and the inverse transform recovers `r` exactly. -/
theorem rtrans_roundtrip (w r : ℝ) (hw0 : 0 < w) (hwpi : w < Real.pi) (hr : 0.02 < r) :
    0 < rtrans_factor w r ∧ 0.01 < rtrans_factor w r * r ∧
      invrtrans w (rtrans_factor w r * r) = r := by
  have hw2 : 0 < w / 2 := by linarith
  have hw2pi : w / 2 < Real.pi / 2 := by linarith
  have ht : 0 < Real.tan (w / 2) := Real.tan_pos_of_pos_of_lt_pi_div_two hw2 hw2pi
  have hr0 : 0 < r := by linarith
  set t := Real.tan (w / 2) with ht_def
  have hfac_def : rtrans_factor w r = 1 / (r * w) * Real.arctan (2 * r * t) := by
    unfold rtrans_factor
    rw [if_neg]
    push_neg
    exact ⟨hw0.ne', by linarith⟩
  have hA : 0 < Real.arctan (2 * r * t) := by
    have := Real.arctan_strictMono (show (0:ℝ) < 2 * r * t by positivity)
    rwa [Real.arctan_zero] at this
  have hfac : 0 < rtrans_factor w r := by
    rw [hfac_def]
    have : 0 < 1 / (r * w) := by positivity
    positivity
  have hfr : rtrans_factor w r * r = Real.arctan (2 * r * t) / w := by
    rw [hfac_def]
    field_simp
    ring
  have hkey : 0.01 * w < Real.arctan (2 * r * t) := by
    rcases le_or_lt (0.04 * t) 1 with h1 | h1
    · have hmono : Real.arctan (0.04 * t) < Real.arctan (2 * r * t) :=
        Real.arctan_strictMono (by nlinarith)
      have hhalf : 0.04 * t / 2 ≤ Real.arctan (0.04 * t) :=
        half_le_arctan (by positivity) h1
      have htt : w / 2 < t := ht_def ▸ Real.lt_tan hw2 hw2pi
      linarith
    · have hmono : Real.arctan 1 < Real.arctan (2 * r * t) :=
        Real.arctan_strictMono (by nlinarith)
      rw [Real.arctan_one] at hmono
      linarith
  refine ⟨hfac, ?_, ?_⟩
  · rw [hfr, lt_div_iff₀ hw0]
    linarith
  · rw [hfr]
    unfold invrtrans
    rw [if_neg hw0.ne', div_mul_cancel₀ _ hw0.ne', Real.tan_arctan, ← ht_def]
    field_simp
    ring

/-- The returned point of `UFBProject` only depends on the parameter
vector and distortion angle of the state it runs on. -/
theorem UFBProject_mvLastIm_congr (s t : CamState) (h1 : s.params = t.params)
    (h3 : s.mdW = t.mdW) (p : ℝ × ℝ) :
    (UFBProject s p).mvLastIm = (UFBProject t p).mvLastIm := by
  simp [h1, h3]

/-- Pixel-space round trip, first direction: unprojecting the projected
pixel recovers the normalized point exactly. -/
theorem unProject_project_point (s : CamState) (hD : DerivedOK s)
    (hw0 : 0 < s.params 4) (hwpi : s.params 4 < Real.pi)
    (hf1 : s.mvFocal.1 ≠ 0) (hf2 : s.mvFocal.2 ≠ 0)
    (p : ℝ × ℝ) (hlo : 0.02 < norm2 p) :
    (UnProject (Project s p) ((Project s p).mvLastIm)).mvLastCam = p := by
  obtain ⟨hW, -, -, -, hif⟩ := hD
  obtain ⟨hfac, hrd, hinv⟩ := rtrans_roundtrip (s.params 4) (norm2 p) hw0 hwpi hlo
  have hr0 : (0:ℝ) < norm2 p := by linarith
  have hfne : rtrans_factor (s.params 4) (norm2 p) ≠ 0 := ne_of_gt hfac
  have hdc : distCamOf (Project s p) ((Project s p).mvLastIm)
      = (rtrans_factor (s.params 4) (norm2 p) * p.1,
         rtrans_factor (s.params 4) (norm2 p) * p.2) := by
    simp only [distCamOf, Project_mvCenter, Project_mvInvFocal, Project_mvLastIm, hif, hW]
    rw [Prod.mk.injEq]
    constructor <;> field_simp
  have hn : norm2 (distCamOf (Project s p) ((Project s p).mvLastIm))
      = rtrans_factor (s.params 4) (norm2 p) * norm2 p := by
    rw [hdc, norm2_scale, abs_of_pos hfac]
  have hupf : unprojFactor (Project s p) ((Project s p).mvLastIm)
      = norm2 p / (rtrans_factor (s.params 4) (norm2 p) * norm2 p) := by
    unfold unprojFactor
    rw [hn, if_pos hrd, Project_mdW, hW, hinv]
  rw [UnProject_mvLastCam, hdc, hupf, Prod.mk.injEq]
  constructor <;> (dsimp only; field_simp; ring)

/-- UFB-space round trip, first direction. -/
theorem ufbUnProject_ufbProject_point (s : CamState) (hW : s.mdW = s.params 4)
    (hw0 : 0 < s.params 4) (hwpi : s.params 4 < Real.pi)
    (hn0 : s.params 0 ≠ 0) (hn1 : s.params 1 ≠ 0)
    (p : ℝ × ℝ) (hlo : 0.02 < norm2 p) :
    (UFBUnProject (UFBProject s p) ((UFBProject s p).mvLastIm)).mvLastCam = p := by
  obtain ⟨hfac, hrd, hinv⟩ := rtrans_roundtrip (s.params 4) (norm2 p) hw0 hwpi hlo
  have hr0 : (0:ℝ) < norm2 p := by linarith
  have hfne : rtrans_factor (s.params 4) (norm2 p) ≠ 0 := ne_of_gt hfac
  have hdc : ufbDistCamOf (UFBProject s p) ((UFBProject s p).mvLastIm)
      = (rtrans_factor (s.params 4) (norm2 p) * p.1,
         rtrans_factor (s.params 4) (norm2 p) * p.2) := by
    simp only [ufbDistCamOf, UFBProject_params, UFBProject_mvLastIm, hW]
    rw [Prod.mk.injEq]
    constructor <;> field_simp
  have hn : norm2 (ufbDistCamOf (UFBProject s p) ((UFBProject s p).mvLastIm))
      = rtrans_factor (s.params 4) (norm2 p) * norm2 p := by
    rw [hdc, norm2_scale, abs_of_pos hfac]
  have hupf : ufbFactor (UFBProject s p) ((UFBProject s p).mvLastIm)
      = norm2 p / (rtrans_factor (s.params 4) (norm2 p) * norm2 p) := by
    unfold ufbFactor
    rw [hn, if_pos hrd, UFBProject_mdW, hW, hinv]
  rw [UFBUnProject_mvLastCam, hdc, hupf, Prod.mk.injEq]
  constructor <;> (dsimp only; field_simp; ring)

/-! ### Claim C1 -/

/-- Claim C1: for every normalized point `p` whose undistorted radius is
strictly greater than the near-zero singularity threshold (`0.02`) and
strictly less than the maximum valid radius, `UnProject (Project p) = p`
exactly, and, for the corresponding pixel `q`, `Project (UnProject q) = q`
exactly; the same round trips hold for `UFBProject` / `UFBUnProject`.
Stated for a camera whose derived scalars are consistent with its
parameter vector (`DerivedOK`), with distortion angle in `(0, π)` and
nonzero focal lengths. -/
theorem project_unproject_round_trip (s : CamState) (hD : DerivedOK s)
    (hw0 : 0 < s.params 4) (hwpi : s.params 4 < Real.pi)
    (hf1 : s.mvFocal.1 ≠ 0) (hf2 : s.mvFocal.2 ≠ 0)
    (hn0 : s.params 0 ≠ 0) (hn1 : s.params 1 ≠ 0)
    (p : ℝ × ℝ) (hlo : 0.02 < norm2 p) (hhi : norm2 p < s.mdMaxR) :
    (UnProject (Project s p) ((Project s p).mvLastIm)).mvLastCam = p ∧
    (Project (UnProject (Project s p) ((Project s p).mvLastIm))
        ((UnProject (Project s p) ((Project s p).mvLastIm)).mvLastCam)).mvLastIm
      = (Project s p).mvLastIm ∧
    (UFBUnProject (UFBProject s p) ((UFBProject s p).mvLastIm)).mvLastCam = p ∧
    (UFBProject (UFBUnProject (UFBProject s p) ((UFBProject s p).mvLastIm))
        ((UFBUnProject (UFBProject s p) ((UFBProject s p).mvLastIm)).mvLastCam)).mvLastIm
      = (UFBProject s p).mvLastIm := by
  have h1 := unProject_project_point s hD hw0 hwpi hf1 hf2 p hlo
  have h3 := ufbUnProject_ufbProject_point s hD.1 hw0 hwpi hn0 hn1 p hlo
  refine ⟨h1, ?_, h3, ?_⟩
  · rw [h1]
    exact Project_mvLastIm_congr _ _ (by simp) (by simp) (by simp) p
  · rw [h3]
    exact UFBProject_mvLastIm_congr _ _ (by simp) (by simp) p

theorem testState_params : testState.params = testParams := rfl

theorem testParams_four : testParams 4 = Real.pi / 2 := rfl

theorem testParams_zero : testParams 0 = 1 := rfl

theorem testParams_one : testParams 1 = 1 := rfl

/-- The hand-built `testState` satisfies the derived-state consistency
invariant. -/
theorem DerivedOK_testState : DerivedOK testState := by
  have hpi := Real.pi_ne_zero
  refine ⟨rfl, rfl, rfl, ?_, ?_⟩
  · show (1 : ℝ) = if testParams 4 = 0 then 0 else 1
    rw [testParams_four, if_neg (by positivity)]
  · show ((1 : ℝ), (1 : ℝ)) = ((1 : ℝ)⁻¹, (1 : ℝ)⁻¹)
    norm_num

theorem norm2_point_six_point_eight : norm2 (0.6, 0.8) = 1 := by
  unfold norm2
  rw [show (0.6 : ℝ) * 0.6 + 0.8 * 0.8 = 1 by norm_num, Real.sqrt_one]

/-- Witness for Claim C1: the round trip at the concrete camera
`testState` (distortion angle `π/2`) and the concrete point
`(0.6, 0.8)` of radius 1. -/
theorem project_unproject_round_trip_witness :
    (UnProject (Project testState (0.6, 0.8))
        ((Project testState (0.6, 0.8)).mvLastIm)).mvLastCam = (0.6, 0.8) ∧
    (Project (UnProject (Project testState (0.6, 0.8)) ((Project testState (0.6, 0.8)).mvLastIm))
        ((UnProject (Project testState (0.6, 0.8))
            ((Project testState (0.6, 0.8)).mvLastIm)).mvLastCam)).mvLastIm
      = (Project testState (0.6, 0.8)).mvLastIm ∧
    (UFBUnProject (UFBProject testState (0.6, 0.8))
        ((UFBProject testState (0.6, 0.8)).mvLastIm)).mvLastCam = (0.6, 0.8) ∧
    (UFBProject
        (UFBUnProject (UFBProject testState (0.6, 0.8))
            ((UFBProject testState (0.6, 0.8)).mvLastIm))
        ((UFBUnProject (UFBProject testState (0.6, 0.8))
            ((UFBProject testState (0.6, 0.8)).mvLastIm)).mvLastCam)).mvLastIm
      = (UFBProject testState (0.6, 0.8)).mvLastIm :=
  project_unproject_round_trip testState DerivedOK_testState
    (by rw [testState_params, testParams_four]; positivity)
    (by rw [testState_params, testParams_four]; linarith [Real.pi_pos])
    (by norm_num [testState])
    (by norm_num [testState])
    (by rw [testState_params, testParams_zero]; norm_num)
    (by rw [testState_params, testParams_one]; norm_num)
    (0.6, 0.8)
    (by rw [norm2_point_six_point_eight]; norm_num)
    (by rw [norm2_point_six_point_eight]; show (1:ℝ) < 2; norm_num)

/-! ### Claim C2 -/

/-- Claim C2: `GetProjectionDerivs`, evaluated on the cache of the most
recent projection with cached coordinates `x, y`, cached `factor`,
`k = 2 tan(w/2)` and `ru` = cached undistorted radius times the
distortion-enabled flag, returns the 2x2 matrix
`M00 = fx (dFdx x + factor)`, `M01 = fx (dFdy x)`,
`M10 = fy (dFdx y)`, `M11 = fy (dFdy y + factor)`, where
`dFdx = dFdy = 0` when `ru < 0.01` and otherwise
`dFdx = (w⁻¹ k / (1 + k² ru²) - factor) x / ru²` (symmetrically in `y`). -/
theorem getProjectionDerivs_cache_formula (s : CamState) (hD : DerivedOK s) :
    GetProjectionDerivs s =
      (let x := s.mvLastCam.1
       let y := s.mvLastCam.2
       let k := 2 * Real.tan (s.params 4 / 2)
       let ru := s.mdLastR * s.mdDistortionEnabled
       let dFdx := if ru < 0.01 then 0
         else ((s.params 4)⁻¹ * k / (1 + k * k * ru * ru) - s.mdLastFactor) * x / (ru * ru)
       let dFdy := if ru < 0.01 then 0
         else ((s.params 4)⁻¹ * k / (1 + k * k * ru * ru) - s.mdLastFactor) * y / (ru * ru)
       ((s.mvFocal.1 * (dFdx * x + s.mdLastFactor), s.mvFocal.1 * (dFdy * x)),
        (s.mvFocal.2 * (dFdx * y), s.mvFocal.2 * (dFdy * y + s.mdLastFactor)))) := by
  obtain ⟨-, hk, hwi, -, -⟩ := hD
  simp only [GetProjectionDerivs, hk, hwi]

/-- Witness for Claim C2: the analytic Jacobian formula instantiated at
the freshly refreshed default camera (640x480 image), whose derived
scalars are consistent by `DerivedOK_refresh`. -/
theorem getProjectionDerivs_cache_formula_witness :
    GetProjectionDerivs (RefreshParams (baseState defaultParams (640, 480)))
      = (let s := RefreshParams (baseState defaultParams (640, 480))
         let x := s.mvLastCam.1
         let y := s.mvLastCam.2
         let k := 2 * Real.tan (s.params 4 / 2)
         let ru := s.mdLastR * s.mdDistortionEnabled
         let dFdx := if ru < 0.01 then 0
           else ((s.params 4)⁻¹ * k / (1 + k * k * ru * ru) - s.mdLastFactor) * x / (ru * ru)
         let dFdy := if ru < 0.01 then 0
           else ((s.params 4)⁻¹ * k / (1 + k * k * ru * ru) - s.mdLastFactor) * y / (ru * ru)
         ((s.mvFocal.1 * (dFdx * x + s.mdLastFactor), s.mvFocal.1 * (dFdy * x)),
          (s.mvFocal.2 * (dFdx * y), s.mvFocal.2 * (dFdy * y + s.mdLastFactor)))) :=
  getProjectionDerivs_cache_formula _ (DerivedOK_refresh _)

/-! ### Claim C3 -/

/-- Claim C3: after a refresh, `Project` flags a point invalid exactly
when its undistorted radius strictly exceeds the maximum valid radius;
that maximum equals `1.5` times the inverse distortion transform of the
Euclidean norm of the farthest image corner (per-axis `max(c, 1-c)/f` in
normalized space); a point exactly at the maximum is not flagged. -/
theorem project_invalid_iff_beyond_max_radius (s : CamState) (p : ℝ × ℝ) :
    ((Project (RefreshParams s) p).mbInvalid = true ↔ (RefreshParams s).mdMaxR < norm2 p) ∧
    (RefreshParams s).mdMaxR
      = 1.5 * invrtrans (s.params 4)
          (norm2 (max (s.params 2) (1 - s.params 2) / s.params 0,
                  max (s.params 3) (1 - s.params 3) / s.params 1)) ∧
    (norm2 p = (RefreshParams s).mdMaxR → (Project (RefreshParams s) p).mbInvalid = false) := by
  refine ⟨by simp, rfl, ?_⟩
  intro h
  simp [h]

theorem norm2_corner_example :
    norm2 (0.9, 1.2) = 1.5 := by
  unfold norm2
  rw [show (0.9 : ℝ) * 0.9 + 1.2 * 1.2 = 1.5 * 1.5 by norm_num,
    Real.sqrt_mul_self (by norm_num : (0:ℝ) ≤ 1.5)]

/-- Witness for Claim C3: a camera with `w = 0`, `fx = 5/6`, `fy = 5/8`
and centered principal point has farthest-corner radius 1 and maximum
valid radius `1.5`; the point `(0.9, 1.2)` sits exactly on that boundary
and is not flagged invalid. -/
theorem project_invalid_iff_beyond_max_radius_witness :
    norm2 (0.9, 1.2)
      = (RefreshParams (baseState
          (fun j => if j.val = 0 then 5/6 else if j.val = 1 then 5/8
            else if j.val ≤ 3 then 1/2 else 0) (1, 1))).mdMaxR ∧
    (Project (RefreshParams (baseState
        (fun j => if j.val = 0 then 5/6 else if j.val = 1 then 5/8
          else if j.val ≤ 3 then 1/2 else 0) (1, 1))) (0.9, 1.2)).mbInvalid = false := by
  have hmax : (RefreshParams (baseState
      (fun j => if j.val = 0 then 5/6 else if j.val = 1 then 5/8
        else if j.val ≤ 3 then 1/2 else 0) (1, 1))).mdMaxR = 1.5 := by
    rw [RefreshParams_mdMaxR]
    show 1.5 * invrtrans 0
        (norm2 (max (1/2) (1 - 1/2) / (5/6), max (1/2) (1 - 1/2) / (5/8))) = 1.5
    rw [invrtrans, if_pos rfl,
      show (max (1/2 : ℝ) (1 - 1/2) / (5/6), max (1/2 : ℝ) (1 - 1/2) / (5/8))
          = ((0.6 : ℝ), (0.8 : ℝ)) by norm_num,
      norm2_point_six_point_eight]
    norm_num
  have hb : norm2 (0.9, 1.2)
      = (RefreshParams (baseState
          (fun j => if j.val = 0 then 5/6 else if j.val = 1 then 5/8
            else if j.val ≤ 3 then 1/2 else 0) (1, 1))).mdMaxR := by
    rw [norm2_corner_example, hmax]
  exact ⟨hb, (project_invalid_iff_beyond_max_radius _ (0.9, 1.2)).2.2 hb⟩

/-! ### Claim C4 -/

/-- Claim C4: with distortion angle `w = 0`, `Project` is the plain
pinhole affine map `pixel = center + focal * p` for every normalized
point, `UnProject` is its exact affine inverse in both directions, and
the refresh takes the explicit zero branch for every distortion scalar
(`1/w` is never formed: `mdWinv`, `md2Tan` and the enabled flag are set
to literal zero). -/
theorem zero_distortion_pinhole (s : CamState) (hw : s.params 4 = 0)
    (hf1 : s.imageSize.1 * s.params 0 ≠ 0) (hf2 : s.imageSize.2 * s.params 1 ≠ 0)
    (p q : ℝ × ℝ) :
    (Project (RefreshParams s) p).mvLastIm
      = ((RefreshParams s).mvCenter.1 + (RefreshParams s).mvFocal.1 * p.1,
         (RefreshParams s).mvCenter.2 + (RefreshParams s).mvFocal.2 * p.2) ∧
    (UnProject (RefreshParams s) ((Project (RefreshParams s) p).mvLastIm)).mvLastCam = p ∧
    (Project (RefreshParams s) ((UnProject (RefreshParams s) q).mvLastCam)).mvLastIm = q ∧
    (RefreshParams s).mdWinv = 0 ∧ (RefreshParams s).md2Tan = 0 ∧
    (RefreshParams s).mdDistortionEnabled = 0 := by
  have hfac : ∀ r, rtrans_factor 0 r = 1 := fun r => by
    unfold rtrans_factor
    rw [if_pos (Or.inl rfl)]
  have hinv : ∀ rd, invrtrans 0 rd = rd := fun rd => by
    unfold invrtrans
    rw [if_pos rfl]
  have hdc : distCamOf (RefreshParams s) ((Project (RefreshParams s) p).mvLastIm) = p := by
    simp only [distCamOf, Project_mvLastIm, RefreshParams_mvCenter, RefreshParams_mvInvFocal,
      RefreshParams_mdW, hw, hfac]
    rw [Prod.mk.injEq]
    constructor <;> (field_simp; try ring)
  have hupf : unprojFactor (RefreshParams s) ((Project (RefreshParams s) p).mvLastIm) = 1 := by
    unfold unprojFactor
    rw [hdc, RefreshParams_mdW, hw, hinv]
    split
    · next h => exact div_self (show (0:ℝ) < norm2 p from lt_trans (by norm_num) h).ne'
    · rfl
  have huf : unprojFactor (RefreshParams s) q = 1 := by
    unfold unprojFactor
    rw [RefreshParams_mdW, hw, hinv]
    split
    · next h =>
      exact div_self
        (show (0:ℝ) < norm2 (distCamOf (RefreshParams s) q) from lt_trans (by norm_num) h).ne'
    · rfl
  refine ⟨?_, ?_, ?_, ?_, ?_, ?_⟩
  · simp [hw, hfac]
  · rw [UnProject_mvLastCam, hdc, hupf]
    simp
  · rw [UnProject_mvLastCam, huf]
    simp only [Project_mvLastIm, RefreshParams_mvCenter, RefreshParams_mvFocal,
      RefreshParams_mdW, hw, hfac, distCamOf, RefreshParams_mvInvFocal, one_mul]
    rw [Prod.mk.injEq]
    constructor <;> (field_simp; try ring)
  · simp [hw]
  · simp [hw]
  · simp [hw]

/-- Witness for Claim C4: the pinhole degeneration at the concrete
camera with unit parameters, `w = 0` and a 1x1 image, at the points
`(2, 3)` and `(5, 7)`. -/
theorem zero_distortion_pinhole_witness :
    (Project (RefreshParams (baseState (fun j => if j.val = 4 then 0 else 1) (1, 1)))
        (2, 3)).mvLastIm
      = ((RefreshParams (baseState (fun j => if j.val = 4 then 0 else 1) (1, 1))).mvCenter.1
           + (RefreshParams (baseState (fun j => if j.val = 4 then 0 else 1) (1, 1))).mvFocal.1
             * (2 : ℝ),
         (RefreshParams (baseState (fun j => if j.val = 4 then 0 else 1) (1, 1))).mvCenter.2
           + (RefreshParams (baseState (fun j => if j.val = 4 then 0 else 1) (1, 1))).mvFocal.2
             * (3 : ℝ)) ∧
    (UnProject (RefreshParams (baseState (fun j => if j.val = 4 then 0 else 1) (1, 1)))
        ((Project (RefreshParams (baseState (fun j => if j.val = 4 then 0 else 1) (1, 1)))
            (2, 3)).mvLastIm)).mvLastCam = (2, 3) ∧
    (Project (RefreshParams (baseState (fun j => if j.val = 4 then 0 else 1) (1, 1)))
        ((UnProject (RefreshParams (baseState (fun j => if j.val = 4 then 0 else 1) (1, 1)))
            (5, 7)).mvLastCam)).mvLastIm = (5, 7) ∧
    (RefreshParams (baseState (fun j => if j.val = 4 then 0 else 1) (1, 1))).mdWinv = 0 ∧
    (RefreshParams (baseState (fun j => if j.val = 4 then 0 else 1) (1, 1))).md2Tan = 0 ∧
    (RefreshParams (baseState (fun j => if j.val = 4 then 0 else 1) (1, 1))).mdDistortionEnabled
      = 0 :=
  zero_distortion_pinhole _ rfl
    (by show (1 : ℝ) * 1 ≠ 0; norm_num)
    (by show (1 : ℝ) * 1 ≠ 0; norm_num)
    (2, 3) (5, 7)

/-! ### Claim C5 -/

/-- Claim C5: in `UnProject` (and `UFBUnProject`) the recovery factor
applied to the distorted coordinates is the ratio of undistorted to
distorted radius exactly when the distorted radius is strictly above
`0.01`, and is exactly `1` when the distorted radius is at or below
`0.01` — the division by the distorted radius is never performed at or
near zero radius. -/
theorem unproject_recovery_factor_guard (s : CamState) (q : ℝ × ℝ) :
    (0.01 < norm2 (distCamOf s q) →
      (UnProject s q).mvLastCam
          = (invrtrans s.mdW (norm2 (distCamOf s q)) / norm2 (distCamOf s q)
               * (distCamOf s q).1,
             invrtrans s.mdW (norm2 (distCamOf s q)) / norm2 (distCamOf s q)
               * (distCamOf s q).2) ∧
        (UnProject s q).mdLastFactor
          = 1 / (invrtrans s.mdW (norm2 (distCamOf s q)) / norm2 (distCamOf s q))) ∧
    (norm2 (distCamOf s q) ≤ 0.01 →
      (UnProject s q).mvLastCam = distCamOf s q ∧ (UnProject s q).mdLastFactor = 1) ∧
    (0.01 < norm2 (ufbDistCamOf s q) →
      (UFBUnProject s q).mvLastCam
          = (invrtrans s.mdW (norm2 (ufbDistCamOf s q)) / norm2 (ufbDistCamOf s q)
               * (ufbDistCamOf s q).1,
             invrtrans s.mdW (norm2 (ufbDistCamOf s q)) / norm2 (ufbDistCamOf s q)
               * (ufbDistCamOf s q).2) ∧
        (UFBUnProject s q).mdLastFactor
          = 1 / (invrtrans s.mdW (norm2 (ufbDistCamOf s q)) / norm2 (ufbDistCamOf s q))) ∧
    (norm2 (ufbDistCamOf s q) ≤ 0.01 →
      (UFBUnProject s q).mvLastCam = ufbDistCamOf s q
        ∧ (UFBUnProject s q).mdLastFactor = 1) := by
  refine ⟨fun h => ?_, fun h => ?_, fun h => ?_, fun h => ?_⟩
  · rw [UnProject_mvLastCam, UnProject_mdLastFactor]
    unfold unprojFactor
    rw [if_pos h]
    exact ⟨rfl, rfl⟩
  · rw [UnProject_mvLastCam, UnProject_mdLastFactor]
    unfold unprojFactor
    rw [if_neg (not_lt.mpr h)]
    simp
  · rw [UFBUnProject_mvLastCam, UFBUnProject_mdLastFactor]
    unfold ufbFactor
    rw [if_pos h]
    exact ⟨rfl, rfl⟩
  · rw [UFBUnProject_mvLastCam, UFBUnProject_mdLastFactor]
    unfold ufbFactor
    rw [if_neg (not_lt.mpr h)]
    simp

theorem distCam_test_34 : distCamOf testState (3, 4) = (3, 4) := by
  show ((3 - 0) * 1, (4 - 0) * 1) = ((3 : ℝ), (4 : ℝ))
  norm_num

theorem ufbDistCam_test_34 : ufbDistCamOf testState (3, 4) = (3, 4) := by
  show ((3 - 0) / 1, (4 - 0) / 1) = ((3 : ℝ), (4 : ℝ))
  norm_num

theorem distCam_test_small : distCamOf testState (0.005, 0) = (0.005, 0) := by
  show ((0.005 - 0) * 1, (0 - 0) * 1) = ((0.005 : ℝ), (0 : ℝ))
  norm_num

theorem ufbDistCam_test_small : ufbDistCamOf testState (0.005, 0) = (0.005, 0) := by
  show ((0.005 - 0) / 1, (0 - 0) / 1) = ((0.005 : ℝ), (0 : ℝ))
  norm_num

theorem norm2_34 : norm2 (3, 4) = 5 := by
  unfold norm2
  rw [show (3 : ℝ) * 3 + 4 * 4 = 5 * 5 by norm_num,
    Real.sqrt_mul_self (by norm_num : (0:ℝ) ≤ 5)]

theorem norm2_small : norm2 (0.005, 0) = 0.005 := by
  unfold norm2
  rw [show (0.005 : ℝ) * 0.005 + 0 * 0 = 0.005 * 0.005 by norm_num,
    Real.sqrt_mul_self (by norm_num : (0:ℝ) ≤ 0.005)]

/-- Witness for Claim C5: both guard branches exercised on `testState`,
at the pixel `(3, 4)` (distorted radius 5) and at `(0.005, 0)`
(distorted radius `0.005`), for both unprojection routines. -/
theorem unproject_recovery_factor_guard_witness :
    ((UnProject testState (3, 4)).mvLastCam
        = (invrtrans testState.mdW (norm2 (distCamOf testState (3, 4)))
             / norm2 (distCamOf testState (3, 4)) * (distCamOf testState (3, 4)).1,
           invrtrans testState.mdW (norm2 (distCamOf testState (3, 4)))
             / norm2 (distCamOf testState (3, 4)) * (distCamOf testState (3, 4)).2) ∧
      (UnProject testState (3, 4)).mdLastFactor
        = 1 / (invrtrans testState.mdW (norm2 (distCamOf testState (3, 4)))
             / norm2 (distCamOf testState (3, 4)))) ∧
    ((UnProject testState (0.005, 0)).mvLastCam = distCamOf testState (0.005, 0) ∧
      (UnProject testState (0.005, 0)).mdLastFactor = 1) ∧
    ((UFBUnProject testState (3, 4)).mvLastCam
        = (invrtrans testState.mdW (norm2 (ufbDistCamOf testState (3, 4)))
             / norm2 (ufbDistCamOf testState (3, 4)) * (ufbDistCamOf testState (3, 4)).1,
           invrtrans testState.mdW (norm2 (ufbDistCamOf testState (3, 4)))
             / norm2 (ufbDistCamOf testState (3, 4)) * (ufbDistCamOf testState (3, 4)).2) ∧
      (UFBUnProject testState (3, 4)).mdLastFactor
        = 1 / (invrtrans testState.mdW (norm2 (ufbDistCamOf testState (3, 4)))
             / norm2 (ufbDistCamOf testState (3, 4)))) ∧
    ((UFBUnProject testState (0.005, 0)).mvLastCam = ufbDistCamOf testState (0.005, 0) ∧
      (UFBUnProject testState (0.005, 0)).mdLastFactor = 1) := by
  refine ⟨?_, ?_, ?_, ?_⟩
  · exact (unproject_recovery_factor_guard testState (3, 4)).1
      (by rw [distCam_test_34, norm2_34]; norm_num)
  · exact (unproject_recovery_factor_guard testState (0.005, 0)).2.1
      (by rw [distCam_test_small, norm2_small]; norm_num)
  · exact (unproject_recovery_factor_guard testState (3, 4)).2.2.1
      (by rw [ufbDistCam_test_34, norm2_34]; norm_num)
  · exact (unproject_recovery_factor_guard testState (0.005, 0)).2.2.2
      (by rw [ufbDistCam_test_small, norm2_small]; norm_num)

/-! ### Claim C8 -/

theorem norm2_zero_pair : norm2 (0, 0) = 0 := by
  unfold norm2
  rw [show (0 : ℝ) * 0 + 0 * 0 = 0 by norm_num, Real.sqrt_zero]

/-- Claim C8: with the default parameters `(0.5, 0.8, 0.5, 0.5, 0.07)`
on a 640x480 image, `Project (0, 0)` lands exactly on the pixel
principal point minus the half-pixel offset,
`(0.5*640 - 0.5, 0.5*480 - 0.5) = (319.5, 239.5)`, and `UnProject` of
that pixel returns `(0, 0)` exactly. -/
theorem default_camera_center_projection :
    (Project (initState defaultParams (640, 480)) (0, 0)).mvLastIm
      = (0.5 * 640 - 0.5, 0.5 * 480 - 0.5) ∧
    (Project (initState defaultParams (640, 480)) (0, 0)).mvLastIm = (319.5, 239.5) ∧
    (UnProject (initState defaultParams (640, 480)) (319.5, 239.5)).mvLastCam = (0, 0) := by
  have him : (Project (initState defaultParams (640, 480)) (0, 0)).mvLastIm
      = (0.5 * 640 - 0.5, 0.5 * 480 - 0.5) := by
    rw [Project_mvLastIm]
    show ((640 * 0.5 - 0.5) + 640 * 0.5 * (rtrans_factor _ _ * 0),
          (480 * 0.5 - 0.5) + 480 * 0.8 * (rtrans_factor _ _ * 0))
        = (0.5 * 640 - 0.5, 0.5 * 480 - 0.5)
    norm_num
  have hdc : distCamOf (initState defaultParams (640, 480)) (319.5, 239.5) = (0, 0) := by
    show ((319.5 - (640 * 0.5 - 0.5)) * (1 / (640 * 0.5)),
          (239.5 - (480 * 0.5 - 0.5)) * (1 / (480 * 0.8))) = ((0 : ℝ), (0 : ℝ))
    norm_num
  have hupf : unprojFactor (initState defaultParams (640, 480)) (319.5, 239.5) = 1 := by
    unfold unprojFactor
    rw [hdc, norm2_zero_pair, if_neg (by norm_num)]
  refine ⟨him, ?_, ?_⟩
  · rw [him]
    norm_num
  · rw [UnProject_mvLastCam, hdc, hupf]
    norm_num

/-! ### Claim C9 -/

/-- Claim C9: every operation that triggers a parameter refresh
(construction, `SetImageSize`, `UpdateParams`, `DisableRadialDistortion`,
and any bare refresh, hence also each restore step inside
`GetCameraParameterDerivs`) overwrites the last-operation cache: the
resulting state is a fixed point of unprojecting the corner pixel
`(-0.5, height - 0.5)` — its cache holds exactly that corner
unprojection — so a subsequent `GetProjectionDerivs` is evaluated at
that corner. -/
theorem refresh_overwrites_cache (s : CamState) (u : Fin 5 → ℝ) (sz : ℝ × ℝ)
    (P : Fin 5 → ℝ) :
    RefreshParams s = UnProject (RefreshParams s) (-0.5, s.imageSize.2 - 0.5) ∧
    UpdateParams s u = UnProject (UpdateParams s u) (-0.5, s.imageSize.2 - 0.5) ∧
    SetImageSize s sz = UnProject (SetImageSize s sz) (-0.5, sz.2 - 0.5) ∧
    DisableRadialDistortion s
      = UnProject (DisableRadialDistortion s) (-0.5, s.imageSize.2 - 0.5) ∧
    initState P sz = UnProject (initState P sz) (-0.5, sz.2 - 0.5) ∧
    GetProjectionDerivs (RefreshParams s)
      = GetProjectionDerivs (UnProject (RefreshParams s) (-0.5, s.imageSize.2 - 0.5)) := by
  refine ⟨RefreshParams_fix s, RefreshParams_fix _, RefreshParams_fix _,
    RefreshParams_fix _, RefreshParams_fix _, ?_⟩
  rw [← RefreshParams_fix]

/-! ### Claim C10 -/

/-- Claim C10: the validity flag is written only by the two projection
routines — `UnProject` and `UFBUnProject` (and every refresh-based
operation) pass it through unchanged, for every pixel input — while
`Project` and `UFBProject` set it to "invalid iff the undistorted radius
strictly exceeds the maximum valid radius". -/
theorem validity_flag_only_projections (s : CamState) (p q : ℝ × ℝ) (u : Fin 5 → ℝ)
    (sz : ℝ × ℝ) :
    (UnProject s q).mbInvalid = s.mbInvalid ∧
    (UFBUnProject s q).mbInvalid = s.mbInvalid ∧
    (RefreshParams s).mbInvalid = s.mbInvalid ∧
    (UpdateParams s u).mbInvalid = s.mbInvalid ∧
    (SetImageSize s sz).mbInvalid = s.mbInvalid ∧
    (DisableRadialDistortion s).mbInvalid = s.mbInvalid ∧
    ((Project s p).mbInvalid = true ↔ s.mdMaxR < norm2 p) ∧
    ((UFBProject s p).mbInvalid = true ↔ s.mdMaxR < norm2 p) :=
  ⟨rfl, rfl, rfl, rfl, rfl, rfl, by simp, by simp⟩

/-! ### The finite-difference parameter Jacobian -/

/-- Unfolding one non-skipped iteration of the finite-difference loop. -/
theorem GCPDIter_no_skip (vN : Fin 5 → ℝ) (v2Cam v2Out : ℝ × ℝ) (i : Fin 5)
    (acc : CamState × (Fin 5 → ℝ × ℝ)) (h : ¬(i = 4 ∧ acc.1.mdW = 0)) :
    GCPDIter vN v2Cam v2Out i acc
      = (RefreshParams
           { Project (UpdateParams acc.1 (fun j => if j = i then 0.001 else 0)) v2Cam
             with params := vN },
         fun j => if j = i then
             (((Project (UpdateParams acc.1 (fun j => if j = i then 0.001 else 0))
                  v2Cam).mvLastIm.1 - v2Out.1) / 0.001,
              ((Project (UpdateParams acc.1 (fun j => if j = i then 0.001 else 0))
                  v2Cam).mvLastIm.2 - v2Out.2) / 0.001)
           else acc.2 j) := by
  unfold GCPDIter
  rw [if_neg h]

/-- The distortion-parameter iteration is skipped when `mdW` is zero. -/
theorem GCPDIter_skip (vN : Fin 5 → ℝ) (v2Cam v2Out : ℝ × ℝ)
    (acc : CamState × (Fin 5 → ℝ × ℝ)) (h : acc.1.mdW = 0) :
    GCPDIter vN v2Cam v2Out 4 acc = acc := by
  unfold GCPDIter
  rw [if_pos ⟨rfl, h⟩]

/-- Walking one non-skipped iteration of the loop of
`GetCameraParameterDerivs`: the carried state keeps the entry parameter
vector and image size (restored and re-refreshed), its `mdW` is derived
from the restored vector, the whole state is the refresh of the entry
state (up to the validity flag), and column `i` holds the claimed
finite-difference quotient. -/
theorem GCPDIter_chain_step (s : CamState) (acc : CamState × (Fin 5 → ℝ × ℝ)) (i : Fin 5)
    (v2Out : ℝ × ℝ)
    (hP : acc.1.params = s.params) (hS : acc.1.imageSize = s.imageSize)
    (hO : s.params 4 = 0 → acc.1.mdOneOver2Tan = s.mdOneOver2Tan)
    (hi4 : i = 4 → s.params 4 ≠ 0)
    (hno : ¬(i = 4 ∧ acc.1.mdW = 0)) :
    (GCPDIter s.params s.mvLastCam v2Out i acc).1.params = s.params ∧
    (GCPDIter s.params s.mvLastCam v2Out i acc).1.imageSize = s.imageSize ∧
    (s.params 4 = 0 →
      (GCPDIter s.params s.mvLastCam v2Out i acc).1.mdOneOver2Tan = s.mdOneOver2Tan) ∧
    (GCPDIter s.params s.mvLastCam v2Out i acc).1.mdW = s.params 4 ∧
    ({ (GCPDIter s.params s.mvLastCam v2Out i acc).1 with mbInvalid := s.mbInvalid }
      = RefreshParams s) ∧
    (GCPDIter s.params s.mvLastCam v2Out i acc).2
      = fun j => if j = i then
          (((Project (RefreshParams { s with params :=
                (fun j => s.params j + (if j = i then 0.001 else 0)) }) s.mvLastCam).mvLastIm.1
              - v2Out.1) / 0.001,
           ((Project (RefreshParams { s with params :=
                (fun j => s.params j + (if j = i then 0.001 else 0)) }) s.mvLastCam).mvLastIm.2
              - v2Out.2) / 0.001)
        else acc.2 j := by
  rw [GCPDIter_no_skip _ _ _ _ _ hno]
  have hAs : (Project (UpdateParams acc.1 (fun j => if j = i then 0.001 else 0))
      s.mvLastCam).imageSize = s.imageSize := by
    simp [UpdateParams, hS]
  have hAo : s.params 4 = 0 →
      (Project (UpdateParams acc.1 (fun j => if j = i then 0.001 else 0))
        s.mvLastCam).mdOneOver2Tan = s.mdOneOver2Tan := by
    intro hw
    have hi : (4 : Fin 5) ≠ i := fun h => hi4 h.symm hw
    rw [Project_mdOneOver2Tan]
    show (RefreshParams { acc.1 with params :=
        (fun j => acc.1.params j + (if j = i then 0.001 else 0)) }).mdOneOver2Tan
      = s.mdOneOver2Tan
    rw [RefreshParams_mdOneOver2Tan]
    have h4 : ({ acc.1 with params :=
        (fun j => acc.1.params j + (if j = i then 0.001 else 0)) } : CamState).params 4 = 0 := by
      show acc.1.params 4 + (if (4 : Fin 5) = i then 0.001 else 0) = 0
      rw [hP, hw, if_neg hi]
      norm_num
    rw [if_pos h4]
    show acc.1.mdOneOver2Tan = s.mdOneOver2Tan
    exact hO hw
  have him : (Project (UpdateParams acc.1 (fun j => if j = i then 0.001 else 0))
        s.mvLastCam).mvLastIm
      = (Project (RefreshParams { s with params :=
          (fun j => s.params j + (if j = i then 0.001 else 0)) }) s.mvLastCam).mvLastIm := by
    show (Project (RefreshParams { acc.1 with params :=
        (fun j => acc.1.params j + (if j = i then 0.001 else 0)) }) s.mvLastCam).mvLastIm = _
    apply Project_RefreshParams_im
    · show (fun j => acc.1.params j + (if j = i then 0.001 else 0))
        = (fun j => s.params j + (if j = i then 0.001 else 0))
      funext j
      rw [hP]
    · exact hS
  refine ⟨by simp, ?_, ?_, by simp, ?_, ?_⟩
  · show (RefreshParams _).imageSize = s.imageSize
    rw [RefreshParams_imageSize]
    exact hAs
  · intro hw
    rw [RefreshParams_mdOneOver2Tan]
    have h4 : ({ Project (UpdateParams acc.1 (fun j => if j = i then 0.001 else 0))
        s.mvLastCam with params := s.params } : CamState).params 4 = 0 := hw
    rw [if_pos h4]
    exact hAo hw
  · have hcong := RefreshParams_congr
      { Project (UpdateParams acc.1 (fun j => if j = i then 0.001 else 0))
          s.mvLastCam with params := s.params } s rfl hAs hAo
    rw [hcong]
    rfl
  · funext j
    by_cases hj : j = i
    · simp only [hj, if_pos rfl, him]
    · simp only [if_neg hj]

/-- Full description of `GetCameraParameterDerivs`: the returned state is
the refresh of the entry state (the parameter vector is restored and the
derived state recomputed from it), every column with index below 4 — and
also column 4 when distortion is enabled — holds the finite-difference
quotient of the projection of the cached point under the perturbed
parameter vector against the baseline projection, and column 4 is forced
to zero when `w = 0`. -/
theorem GCPD_master (s : CamState) :
    ({ (GetCameraParameterDerivs s).1 with mbInvalid := s.mbInvalid } = RefreshParams s) ∧
    (∀ i : Fin 5, (i.val < 4 ∨ s.params 4 ≠ 0) →
      (GetCameraParameterDerivs s).2 i
        = (((Project (RefreshParams { s with params :=
                (fun j => s.params j + (if j = i then 0.001 else 0)) }) s.mvLastCam).mvLastIm.1
              - (Project s s.mvLastCam).mvLastIm.1) / 0.001,
           ((Project (RefreshParams { s with params :=
                (fun j => s.params j + (if j = i then 0.001 else 0)) }) s.mvLastCam).mvLastIm.2
              - (Project s s.mvLastCam).mvLastIm.2) / 0.001)) ∧
    (s.params 4 = 0 → (GetCameraParameterDerivs s).2 4 = (0, 0)) := by
  have hall : ∀ k : Fin 5, k = 0 ∨ k = 1 ∨ k = 2 ∨ k = 3 ∨ k = 4 := by decide
  set st0 := Project s s.mvLastCam with hst0
  set v2Out := st0.mvLastIm with hOut
  set M0 : Fin 5 → ℝ × ℝ := fun _ => ((0:ℝ), (0:ℝ)) with hM0
  obtain ⟨P0, S0, O0, W0, R0, C0⟩ :=
    GCPDIter_chain_step s (st0, M0) 0 v2Out (by simp [hst0]) (by simp [hst0])
      (fun _ => by simp [hst0]) (fun h => absurd h (by decide)) (fun h => absurd h.1 (by decide))
  set a0 := GCPDIter s.params s.mvLastCam v2Out 0 (st0, M0) with ha0
  obtain ⟨P1, S1, O1, W1, R1, C1⟩ :=
    GCPDIter_chain_step s a0 1 v2Out P0 S0 O0
      (fun h => absurd h (by decide)) (fun h => absurd h.1 (by decide))
  set a1 := GCPDIter s.params s.mvLastCam v2Out 1 a0 with ha1
  obtain ⟨P2, S2, O2, W2, R2, C2⟩ :=
    GCPDIter_chain_step s a1 2 v2Out P1 S1 O1
      (fun h => absurd h (by decide)) (fun h => absurd h.1 (by decide))
  set a2 := GCPDIter s.params s.mvLastCam v2Out 2 a1 with ha2
  obtain ⟨P3, S3, O3, W3, R3, C3⟩ :=
    GCPDIter_chain_step s a2 3 v2Out P2 S2 O2
      (fun h => absurd h (by decide)) (fun h => absurd h.1 (by decide))
  set a3 := GCPDIter s.params s.mvLastCam v2Out 3 a2 with ha3
  by_cases hw : s.params 4 = 0
  · have hskip : GCPDIter s.params s.mvLastCam v2Out 4 a3 = a3 :=
      GCPDIter_skip _ _ _ _ (W3.trans hw)
    have hG : GetCameraParameterDerivs s
        = (a3.1, fun j => if j = 4 then (0, 0) else a3.2 j) := by
      have hdef : GetCameraParameterDerivs s
          = (if (GCPDIter s.params s.mvLastCam v2Out 4 a3).1.mdW = 0
              then ((GCPDIter s.params s.mvLastCam v2Out 4 a3).1,
                    fun j => if j = 4 then (0, 0)
                      else (GCPDIter s.params s.mvLastCam v2Out 4 a3).2 j)
              else GCPDIter s.params s.mvLastCam v2Out 4 a3) := rfl
      rw [hdef, hskip, if_pos (W3.trans hw)]
    refine ⟨?_, ?_, ?_⟩
    · rw [hG]
      exact R3
    · intro i hi
      have hi' : i.val < 4 := hi.resolve_right (not_not_intro hw)
      rw [hG]
      rcases hall i with rfl | rfl | rfl | rfl | rfl
      · simp only [C3, C2, C1, C0, hM0]
        simp
      · simp only [C3, C2, C1, C0, hM0]
        simp
      · simp only [C3, C2, C1, C0, hM0]
        simp
      · simp only [C3, C2, C1, C0, hM0]
        simp
      · exact absurd hi' (by decide)
    · intro _
      rw [hG]
      simp
  · obtain ⟨P4, S4, O4, W4, R4, C4⟩ :=
      GCPDIter_chain_step s a3 4 v2Out P3 S3 O3
        (fun _ => hw) (fun h => hw (W3.symm.trans h.2))
    set a4 := GCPDIter s.params s.mvLastCam v2Out 4 a3 with ha4
    have hG : GetCameraParameterDerivs s = a4 := by
      have hdef : GetCameraParameterDerivs s
          = (if a4.1.mdW = 0
              then (a4.1, fun j => if j = 4 then (0, 0) else a4.2 j)
              else a4) := rfl
      rw [hdef, if_neg (W4.symm ▸ hw)]
    refine ⟨?_, ?_, ?_⟩
    · rw [hG]
      exact R4
    · intro i _
      rw [hG]
      rcases hall i with rfl | rfl | rfl | rfl | rfl
      · simp only [C4, C3, C2, C1, C0, hM0]
        simp
      · simp only [C4, C3, C2, C1, C0, hM0]
        simp
      · simp only [C4, C3, C2, C1, C0, hM0]
        simp
      · simp only [C4, C3, C2, C1, C0, hM0]
        simp
      · simp only [C4, C3, C2, C1, C0, hM0]
        simp
    · intro h
      exact absurd h hw

/-! ### Claim C6 -/

/-- Claim C6 (amended): `GetCameraParameterDerivs` restores the
intrinsic parameter vector to its entry value and leaves the state
refreshed from that restored vector (everything but the validity flag is
exactly `RefreshParams` of the entry state); every column with index
below 4 — and the distortion column too when `w ≠ 0` — equals the
perturbed-minus-baseline projection of the cached point divided by the
step `0.001`; when `w = 0` the distortion column is instead forced to
exact zero (the perturbation is skipped). -/
theorem getCameraParameterDerivs_restore_and_columns (s : CamState) :
    ((GetCameraParameterDerivs s).1.params = s.params) ∧
    ({ (GetCameraParameterDerivs s).1 with mbInvalid := s.mbInvalid } = RefreshParams s) ∧
    (∀ i : Fin 5, (i.val < 4 ∨ s.params 4 ≠ 0) →
      (GetCameraParameterDerivs s).2 i
        = (((Project (RefreshParams { s with params :=
                (fun j => s.params j + (if j = i then 0.001 else 0)) }) s.mvLastCam).mvLastIm.1
              - (Project s s.mvLastCam).mvLastIm.1) / 0.001,
           ((Project (RefreshParams { s with params :=
                (fun j => s.params j + (if j = i then 0.001 else 0)) }) s.mvLastCam).mvLastIm.2
              - (Project s s.mvLastCam).mvLastIm.2) / 0.001)) ∧
    (s.params 4 = 0 → (GetCameraParameterDerivs s).2 4 = (0, 0)) := by
  obtain ⟨hR, hC, hZ⟩ := GCPD_master s
  refine ⟨?_, hR, hC, hZ⟩
  have := congrArg CamState.params hR
  simpa using this

/-- Witness for Claim C6 at the zero-distortion unit camera: the state
is restored and refreshed, column 0 carries the finite-difference
quotient, and the distortion column is zero. -/
theorem getCameraParameterDerivs_restore_and_columns_witness :
    (let S := initState (fun j => if j.val = 4 then 0 else 1) (1, 1)
     ((GetCameraParameterDerivs S).1.params = S.params) ∧
     ({ (GetCameraParameterDerivs S).1 with mbInvalid := S.mbInvalid } = RefreshParams S) ∧
     (GetCameraParameterDerivs S).2 0
       = (((Project (RefreshParams { S with params :=
               (fun j => S.params j + (if j = 0 then 0.001 else 0)) }) S.mvLastCam).mvLastIm.1
             - (Project S S.mvLastCam).mvLastIm.1) / 0.001,
          ((Project (RefreshParams { S with params :=
               (fun j => S.params j + (if j = 0 then 0.001 else 0)) }) S.mvLastCam).mvLastIm.2
             - (Project S S.mvLastCam).mvLastIm.2) / 0.001) ∧
     (GetCameraParameterDerivs S).2 4 = (0, 0)) := by
  refine ⟨?_, ?_, ?_, ?_⟩
  · exact (getCameraParameterDerivs_restore_and_columns _).1
  · exact (getCameraParameterDerivs_restore_and_columns _).2.1
  · exact (getCameraParameterDerivs_restore_and_columns _).2.2.1 0 (Or.inl (by decide))
  · exact (getCameraParameterDerivs_restore_and_columns _).2.2.2 rfl

theorem rtrans_factor_zero_w (r : ℝ) : rtrans_factor 0 r = 1 := by
  unfold rtrans_factor
  rw [if_pos (Or.inl rfl)]

theorem norm2_far_point : norm2 ((10000 : ℝ), 0) = 10000 := by
  unfold norm2
  rw [show (10000 : ℝ) * 10000 + 0 * 0 = 10000 * 10000 by norm_num,
    Real.sqrt_mul_self (by norm_num : (0:ℝ) ≤ 10000)]

theorem rtrans_factor_far_lt_one :
    rtrans_factor 0.001 (norm2 ((10000 : ℝ), 0)) < 1 := by
  rw [norm2_far_point]
  unfold rtrans_factor
  rw [if_neg (by push_neg; constructor <;> norm_num)]
  have harc := Real.arctan_lt_pi_div_two (2 * 10000 * Real.tan (0.001 / 2))
  have hpi := Real.pi_le_four
  have hc : 1 / ((10000:ℝ) * 0.001) = 1 / 10 := by norm_num
  rw [hc]
  nlinarith [harc, hpi]

/-- Counterexample to Claim C6 as frozen: for a zero-distortion camera
whose cached point is `(10000, 0)`, the last column of the returned
matrix is the forced zero column and does **not** equal the
finite-difference quotient for the distortion parameter (which is
strictly negative in its first component). -/
theorem getCameraParameterDerivs_last_column_counterexample :
    (GetCameraParameterDerivs
        (Project (RefreshParams (baseState (fun j => if j.val = 4 then 0 else 1) (1, 1)))
          (10000, 0))).2 4
      ≠ (((Project (RefreshParams
              { Project (RefreshParams (baseState (fun j => if j.val = 4 then 0 else 1) (1, 1)))
                  (10000, 0) with params :=
                (fun j => (Project (RefreshParams
                    (baseState (fun j => if j.val = 4 then 0 else 1) (1, 1))) (10000, 0)).params j
                  + (if j = (4 : Fin 5) then 0.001 else 0)) })
              (Project (RefreshParams (baseState (fun j => if j.val = 4 then 0 else 1) (1, 1)))
                  (10000, 0)).mvLastCam).mvLastIm.1
            - (Project
                (Project (RefreshParams (baseState (fun j => if j.val = 4 then 0 else 1) (1, 1)))
                  (10000, 0))
                (Project (RefreshParams (baseState (fun j => if j.val = 4 then 0 else 1) (1, 1)))
                  (10000, 0)).mvLastCam).mvLastIm.1) / 0.001,
          ((Project (RefreshParams
              { Project (RefreshParams (baseState (fun j => if j.val = 4 then 0 else 1) (1, 1)))
                  (10000, 0) with params :=
                (fun j => (Project (RefreshParams
                    (baseState (fun j => if j.val = 4 then 0 else 1) (1, 1))) (10000, 0)).params j
                  + (if j = (4 : Fin 5) then 0.001 else 0)) })
              (Project (RefreshParams (baseState (fun j => if j.val = 4 then 0 else 1) (1, 1)))
                  (10000, 0)).mvLastCam).mvLastIm.2
            - (Project
                (Project (RefreshParams (baseState (fun j => if j.val = 4 then 0 else 1) (1, 1)))
                  (10000, 0))
                (Project (RefreshParams (baseState (fun j => if j.val = 4 then 0 else 1) (1, 1)))
                  (10000, 0)).mvLastCam).mvLastIm.2) / 0.001) := by
  intro h
  have hz : (GetCameraParameterDerivs
      (Project (RefreshParams (baseState (fun j => if j.val = 4 then 0 else 1) (1, 1)))
        (10000, 0))).2 4 = (0, 0) :=
    (GCPD_master _).2.2 rfl
  rw [hz] at h
  have h1 := congrArg Prod.fst h
  simp only [Project_mvLastIm, Project_mvLastCam, RefreshParams_mvCenter, RefreshParams_mvFocal,
    RefreshParams_mdW] at h1
  simp only [baseState] at h1
  norm_num +decide [rtrans_factor_zero_w] at h1
  nlinarith [rtrans_factor_far_lt_one, h1]

/-! ### Claim C7 -/

/-- Claim C7: when the distortion parameter `w` is zero,
`GetCameraParameterDerivs` skips the perturbation of the last
(distortion) parameter and returns a matrix whose last column is exactly
zero in both rows. -/
theorem getCameraParameterDerivs_skips_distortion_column (s : CamState)
    (hw : s.params 4 = 0) :
    (GetCameraParameterDerivs s).2 4 = (0, 0) :=
  (GCPD_master s).2.2 hw

/-- Witness for Claim C7 at the zero-distortion unit camera. -/
theorem getCameraParameterDerivs_skips_distortion_column_witness :
    (GetCameraParameterDerivs (initState (fun j => if j.val = 4 then 0 else 1) (1, 1))).2 4
      = (0, 0) :=
  getCameraParameterDerivs_skips_distortion_column _ rfl

end ATANCamera

end
